import Mathlib

/-!
Verification development for the bmi160-rs driver sources
(`src/lib.rs`, `src/register.rs`).

The repository's `lib.rs` consists of the sensor's register-sheet constants
(FIFO header tags, frame lengths, configuration limits); the FIFO frame
decoder, configuration encoder and bus-write plumbing that the specification
describes are not present in the sources, only the constants they would
consume.  Following the specification, those missing operations are modelled
here (each such definition is marked `Modelled from the spec:`), built on top
of the constants taken verbatim from `lib.rs`.  `register.rs` is embedded
directly.
-/

set_option maxRecDepth 4000

namespace BMI160

/-! ### Constants, taken verbatim from `src/lib.rs` -/

/-- Maximum limits definition, `src/lib.rs`. -/
def ACCEL_ODR_MAX : Nat := 15
/-- Maximum limits definition, `src/lib.rs`. -/
def GYRO_ODR_MAX : Nat := 13
/-- Maximum limits definition, `src/lib.rs`. -/
def ACCEL_RANGE_MAX : Nat := 12
/-- Maximum limits definition, `src/lib.rs`. -/
def GYRO_RANGE_MAX : Nat := 4

/-- Accel range code, `src/lib.rs`. -/
def ACCEL_RANGE_2G : Nat := 0x03
/-- Accel range code, `src/lib.rs`. -/
def ACCEL_RANGE_4G : Nat := 0x05
/-- Accel range code, `src/lib.rs`. -/
def ACCEL_RANGE_8G : Nat := 0x08
/-- Accel range code, `src/lib.rs`. -/
def ACCEL_RANGE_16G : Nat := 0x0C

/-- Gyro range code, `src/lib.rs`. -/
def GYRO_RANGE_2000_DPS : Nat := 0x00
/-- Gyro range code, `src/lib.rs`. -/
def GYRO_RANGE_1000_DPS : Nat := 0x01
/-- Gyro range code, `src/lib.rs`. -/
def GYRO_RANGE_500_DPS : Nat := 0x02
/-- Gyro range code, `src/lib.rs`. -/
def GYRO_RANGE_250_DPS : Nat := 0x03
/-- Gyro range code, `src/lib.rs`. -/
def GYRO_RANGE_125_DPS : Nat := 0x04

/-- Gyro frame length in the FIFO, `src/lib.rs`. -/
def FIFO_G_LENGTH : Nat := 6
/-- Accel frame length in the FIFO, `src/lib.rs`. -/
def FIFO_A_LENGTH : Nat := 6
/-- Mag frame length in the FIFO, `src/lib.rs`. -/
def FIFO_M_LENGTH : Nat := 8
/-- Combined mag+gyro+accel length in the FIFO, `src/lib.rs`. -/
def FIFO_MGA_LENGTH : Nat := 20

/-- FIFO header tag: skip frame, `src/lib.rs`. -/
def FIFO_HEAD_SKIP_FRAME : Nat := 0x40
/-- FIFO header tag: sensor time frame, `src/lib.rs`. -/
def FIFO_HEAD_SENSOR_TIME : Nat := 0x44
/-- FIFO header tag: input config changed, `src/lib.rs`. -/
def FIFO_HEAD_INPUT_CONFIG : Nat := 0x48
/-- FIFO header tag: FIFO empty / over-read marker, `src/lib.rs`. -/
def FIFO_HEAD_OVER_READ : Nat := 0x80
/-- FIFO header tag: accel data frame, `src/lib.rs`. -/
def FIFO_HEAD_A : Nat := 0x84
/-- FIFO header tag: gyro data frame, `src/lib.rs`. -/
def FIFO_HEAD_G : Nat := 0x88
/-- FIFO header tag: gyro+accel data frame, `src/lib.rs`. -/
def FIFO_HEAD_G_A : Nat := 0x8C
/-- FIFO header tag: mag data frame, `src/lib.rs`. -/
def FIFO_HEAD_M : Nat := 0x90
/-- FIFO header tag: mag+accel data frame, `src/lib.rs`. -/
def FIFO_HEAD_M_A : Nat := 0x94
/-- FIFO header tag: mag+gyro data frame, `src/lib.rs`. -/
def FIFO_HEAD_M_G : Nat := 0x98
/-- FIFO header tag: mag+gyro+accel data frame, `src/lib.rs`. -/
def FIFO_HEAD_M_G_A : Nat := 0x9C

/-- Sensor time payload length, `src/lib.rs`. -/
def SENSOR_TIME_LENGTH : Nat := 3

/-! ### Data model -/

/-- FIFO configuration, as described by the spec's data model: stream enables,
header mode, sensor-time-on-flush, per-stream downsampling shifts. -/
structure FifoConfig where
  accelEn : Bool
  gyroEn : Bool
  magEn : Bool
  headerMode : Bool
  sensorTimeOnFlush : Bool
  accelDowns : Nat
  gyroDowns : Nat
deriving DecidableEq

/-- One decoded FIFO unit (spec data model `RawFrame`).  Axis samples are
signed 16-bit values, `rhall` is unsigned, sensor time is unsigned 24-bit. -/
inductive RawFrame where
  | Accel (x y z : Int)
  | Gyro (x y z : Int)
  | Mag (x y z : Int) (rhall : Nat)
  | SensorTime (ticks : Nat)
  | SkipFrame (count : Nat)
  | InputConfigChanged
  | Overread
deriving DecidableEq

/-- Decode error kinds relevant to the FIFO decoder (spec §7). -/
inductive DecodeError where
  | MalformedFifoHeader (offset : Nat) (byte : Nat)
deriving DecidableEq

/-- Result of one decode call: ordered frames, count of bytes consumed,
leftover bytes of an incomplete trailing frame, and an optional error. -/
structure DecodeResult where
  frames : List RawFrame
  consumed : Nat
  leftover : List Nat
  error : Option DecodeError
deriving DecidableEq

/-! ### Little-endian reconstruction (spec §4.1) -/

/-- Unsigned 16-bit value from little-endian byte pair. -/
def u16le (lsb msb : Nat) : Nat := msb * 256 + lsb

/-- Two's-complement signed interpretation of a 16-bit value. -/
def toI16 (v : Nat) : Int :=
  if v % 65536 < 32768 then ((v % 65536 : Nat) : Int) else (v % 65536 : Int) - 65536

/-- Signed 16-bit axis sample from little-endian byte pair:
`(msb as i16) << 8 | (lsb as i16)`, interpreted as signed. -/
def i16le (lsb msb : Nat) : Int := toI16 (u16le lsb msb)

/-- Unsigned 24-bit sensor time, LSB-first three-byte little-endian. -/
def u24le (b0 b1 b2 : Nat) : Nat := b0 + 256 * b1 + 65536 * b2

/-! ### Stream payload parsers -/

/-- Modelled from the spec: parse one 8-byte mag payload (x, y, z, rhall,
each little-endian; rhall unsigned) off the front of the byte list. -/
def parseMagO : List Nat → Option (List RawFrame × List Nat)
  | x0 :: x1 :: y0 :: y1 :: z0 :: z1 :: r0 :: r1 :: rest =>
      some ([RawFrame.Mag (i16le x0 x1) (i16le y0 y1) (i16le z0 z1) (u16le r0 r1)], rest)
  | _ => none

/-- Modelled from the spec: parse one 6-byte gyro payload off the front of
the byte list. -/
def parseGyroO : List Nat → Option (List RawFrame × List Nat)
  | x0 :: x1 :: y0 :: y1 :: z0 :: z1 :: rest =>
      some ([RawFrame.Gyro (i16le x0 x1) (i16le y0 y1) (i16le z0 z1)], rest)
  | _ => none

/-- Modelled from the spec: parse one 6-byte accel payload off the front of
the byte list. -/
def parseAccelO : List Nat → Option (List RawFrame × List Nat)
  | x0 :: x1 :: y0 :: y1 :: z0 :: z1 :: rest =>
      some ([RawFrame.Accel (i16le x0 x1) (i16le y0 y1) (i16le z0 z1)], rest)
  | _ => none

/-- Total payload length of a data frame with the given stream set
(`FIFO_M_LENGTH`/`FIFO_G_LENGTH`/`FIFO_A_LENGTH` from `src/lib.rs`). -/
def dataLen (m g a : Bool) : Nat :=
  (if m then FIFO_M_LENGTH else 0) + (if g then FIFO_G_LENGTH else 0) +
    (if a then FIFO_A_LENGTH else 0)

/-- Modelled from the spec: parse the payload of a data frame, streams
concatenated in the fixed order mag(8) → gyro(6) → accel(6), only for the
flagged streams.  Fails (`none`) when fewer bytes remain than the frame's
declared length. -/
def parseData (m g a : Bool) (p : List Nat) : Option (List RawFrame × List Nat) :=
  (if m then parseMagO p else some ([], p)).bind fun r1 =>
    (if g then parseGyroO r1.2 else some ([], r1.2)).bind fun r2 =>
      (if a then parseAccelO r2.2 else some ([], r2.2)).map fun r3 =>
        (r1.1 ++ r2.1 ++ r3.1, r3.2)

/-- Is this byte one of the seven regular data-frame headers of `src/lib.rs`? -/
def isDataHead (h : Nat) : Bool :=
  h = FIFO_HEAD_A || h = FIFO_HEAD_G || h = FIFO_HEAD_G_A || h = FIFO_HEAD_M ||
    h = FIFO_HEAD_M_A || h = FIFO_HEAD_M_G || h = FIFO_HEAD_M_G_A

/-- Does this data-frame header flag the mag stream? -/
def headMag (h : Nat) : Bool :=
  h = FIFO_HEAD_M || h = FIFO_HEAD_M_A || h = FIFO_HEAD_M_G || h = FIFO_HEAD_M_G_A

/-- Does this data-frame header flag the gyro stream? -/
def headGyro (h : Nat) : Bool :=
  h = FIFO_HEAD_G || h = FIFO_HEAD_G_A || h = FIFO_HEAD_M_G || h = FIFO_HEAD_M_G_A

/-- Does this data-frame header flag the accel stream? -/
def headAccel (h : Nat) : Bool :=
  h = FIFO_HEAD_A || h = FIFO_HEAD_G_A || h = FIFO_HEAD_M_A || h = FIFO_HEAD_M_G_A

/-! ### The FIFO frame decoder -/

/-- Modelled from the spec: headered-mode decode loop (spec §4.1).  The fuel
argument bounds the number of frames; the public `decode` passes the buffer
length, which suffices because every frame occupies at least one byte.
`off` is the byte offset of the loop position inside the full input, used for
the consumed count and for error reporting. -/
def decodeH : Nat → List Nat → Nat → DecodeResult
  | 0, buf, off => ⟨[], off, buf, none⟩
  | fuel + 1, buf, off =>
    match buf with
    | [] => ⟨[], off, [], none⟩
    | h :: rest =>
      if h = FIFO_HEAD_OVER_READ then
        ⟨[], off + 1 + rest.length, [], none⟩
      else if isDataHead h then
        match parseData (headMag h) (headGyro h) (headAccel h) rest with
        | some (fr, rest2) =>
          let r := decodeH fuel rest2 (off + (1 + dataLen (headMag h) (headGyro h) (headAccel h)))
          ⟨fr ++ r.frames, r.consumed, r.leftover, r.error⟩
        | none => ⟨[], off, h :: rest, none⟩
      else if h = FIFO_HEAD_SKIP_FRAME then
        match rest with
        | c :: rest2 =>
          let r := decodeH fuel rest2 (off + 2)
          ⟨RawFrame.SkipFrame c :: r.frames, r.consumed, r.leftover, r.error⟩
        | [] => ⟨[], off, [h], none⟩
      else if h = FIFO_HEAD_SENSOR_TIME then
        match rest with
        | b0 :: b1 :: b2 :: rest2 =>
          let r := decodeH fuel rest2 (off + (1 + SENSOR_TIME_LENGTH))
          ⟨RawFrame.SensorTime (u24le b0 b1 b2) :: r.frames, r.consumed, r.leftover, r.error⟩
        | _ => ⟨[], off, h :: rest, none⟩
      else if h = FIFO_HEAD_INPUT_CONFIG then
        let r := decodeH fuel rest (off + 1)
        ⟨RawFrame.InputConfigChanged :: r.frames, r.consumed, r.leftover, r.error⟩
      else
        ⟨[], off, [], some (DecodeError.MalformedFifoHeader off h)⟩

/-- Modelled from the spec: headerless-mode decode loop (spec §4.1): the
frame layout is fixed by the configuration alone, mag → gyro → accel for the
enabled streams, with no markers. -/
def decodeHL : Nat → List Nat → Nat → Bool → Bool → Bool → DecodeResult
  | 0, buf, off, _, _, _ => ⟨[], off, buf, none⟩
  | fuel + 1, buf, off, m, g, a =>
    match buf with
    | [] => ⟨[], off, [], none⟩
    | b :: rest =>
      match parseData m g a (b :: rest) with
      | some (fr, rest2) =>
        let r := decodeHL fuel rest2 (off + dataLen m g a) m g a
        ⟨fr ++ r.frames, r.consumed, r.leftover, r.error⟩
      | none => ⟨[], off, b :: rest, none⟩

/-- Modelled from the spec: the FIFO frame decoder's public contract,
`decode(buffer, config, carry) -> DecodeResult` (spec §4.1).  The optional
carry of an earlier call's leftover bytes is prepended to the buffer.  In
headerless mode with no stream enabled the FIFO stores nothing and the call
returns immediately. -/
def decode (buffer : List Nat) (config : FifoConfig) (carry : Option (List Nat)) :
    DecodeResult :=
  let input := carry.getD [] ++ buffer
  if config.headerMode then
    decodeH input.length input 0
  else if dataLen config.magEn config.gyroEn config.accelEn = 0 then
    ⟨[], 0, [], none⟩
  else
    decodeHL input.length input 0 config.magEn config.gyroEn config.accelEn

/-! ### Frame encoding (for stating round-trip properties) -/

/-- A frame of known composition before serialization: data frames carry the
raw unsigned 16-bit words per enabled stream (mag also carries rhall). -/
inductive EncFrame where
  | data (mag : Option (Nat × Nat × Nat × Nat)) (gyro : Option (Nat × Nat × Nat))
      (accel : Option (Nat × Nat × Nat))
  | skip (count : Nat)
  | time (ticks : Nat)
  | cfgChange
deriving DecidableEq

/-- Serialize an unsigned 16-bit word LSB-first. -/
def enc16 (v : Nat) : List Nat := [v % 256, v / 256]

/-- Serialize a mag payload (x, y, z, rhall). -/
def encMag : Nat × Nat × Nat × Nat → List Nat
  | (x, y, z, r) => enc16 x ++ enc16 y ++ enc16 z ++ enc16 r

/-- Serialize a gyro payload (x, y, z). -/
def encGyro : Nat × Nat × Nat → List Nat
  | (x, y, z) => enc16 x ++ enc16 y ++ enc16 z

/-- Serialize an accel payload (x, y, z). -/
def encAccel : Nat × Nat × Nat → List Nat
  | (x, y, z) => enc16 x ++ enc16 y ++ enc16 z

/-- Header byte of a data frame with the given stream set. -/
def headOf (m g a : Bool) : Nat :=
  0x80 + (if m then 0x10 else 0) + (if g then 0x08 else 0) + (if a then 0x04 else 0)

/-- Serialize one frame, headered mode. -/
def encodeFrame : EncFrame → List Nat
  | .data mg gy ac =>
    headOf mg.isSome gy.isSome ac.isSome ::
      ((mg.map encMag).getD [] ++ (gy.map encGyro).getD [] ++ (ac.map encAccel).getD [])
  | .skip c => [FIFO_HEAD_SKIP_FRAME, c]
  | .time t => [FIFO_HEAD_SENSOR_TIME, t % 256, t / 256 % 256, t / 65536]
  | .cfgChange => [FIFO_HEAD_INPUT_CONFIG]

/-- Serialize a frame sequence, headered mode. -/
def encodeFrames : List EncFrame → List Nat
  | [] => []
  | f :: fs => encodeFrame f ++ encodeFrames fs

/-- A frame is valid when its fields fit their wire widths and, for a data
frame, at least one stream is present (a stream-less data header would
coincide with the over-read marker 0x80). -/
def validFrame : EncFrame → Bool
  | .data mg gy ac =>
    (mg.isSome || gy.isSome || ac.isSome) &&
      (match mg with
       | none => true
       | some (x, y, z, r) =>
         decide (x < 65536) && decide (y < 65536) && decide (z < 65536) && decide (r < 65536)) &&
      (match gy with
       | none => true
       | some (x, y, z) => decide (x < 65536) && decide (y < 65536) && decide (z < 65536)) &&
      (match ac with
       | none => true
       | some (x, y, z) => decide (x < 65536) && decide (y < 65536) && decide (z < 65536))
  | .skip c => decide (c < 256)
  | .time t => decide (t < 16777216)
  | .cfgChange => true

/-- The typed frames a single encoded frame stands for. -/
def framesOf1 : EncFrame → List RawFrame
  | .data mg gy ac =>
    (mg.map fun q => RawFrame.Mag (toI16 q.1) (toI16 q.2.1) (toI16 q.2.2.1) q.2.2.2).toList ++
      (gy.map fun q => RawFrame.Gyro (toI16 q.1) (toI16 q.2.1) (toI16 q.2.2)).toList ++
        (ac.map fun q => RawFrame.Accel (toI16 q.1) (toI16 q.2.1) (toI16 q.2.2)).toList
  | .skip c => [RawFrame.SkipFrame c]
  | .time t => [RawFrame.SensorTime t]
  | .cfgChange => [RawFrame.InputConfigChanged]

/-- The typed frames a frame sequence stands for. -/
def framesOf : List EncFrame → List RawFrame
  | [] => []
  | f :: fs => framesOf1 f ++ framesOf fs

/-- The set of FIFO header tags the decoder recognizes: the over-read marker,
the seven data headers, and the skip / sensor-time / input-config markers. -/
def recognizedHead (h : Nat) : Bool :=
  h = FIFO_HEAD_OVER_READ || isDataHead h || h = FIFO_HEAD_SKIP_FRAME ||
    h = FIFO_HEAD_SENSOR_TIME || h = FIFO_HEAD_INPUT_CONFIG

/-! ### Configuration encoder (spec §4.2) -/

/-- Which sensor a configuration write targets. -/
inductive SensorKind where
  | accel
  | gyro
deriving DecidableEq

/-- Driver error kinds (spec §7), plus the local rejection of a write to a
read-only register. -/
inductive DriverError where
  | CommunicationFailure
  | InvalidConfiguration
  | FocTimeout
  | WriteToReadOnly
deriving DecidableEq

/-- Modelled from the spec: `encode_odr_bw(odr, bandwidth) -> byte` accepts
only output-data-rate codes 0–13 for gyro / 0–15 for accel (the source's
`GYRO_ODR_MAX`/`ACCEL_ODR_MAX`) and bandwidth codes 0–7; anything else fails
with an out-of-range error. -/
def encode_odr_bw (s : SensorKind) (odr bw : Nat) : Except DriverError Nat :=
  if (match s with | .accel => ACCEL_ODR_MAX | .gyro => GYRO_ODR_MAX) < odr then
    .error .InvalidConfiguration
  else if 7 < bw then
    .error .InvalidConfiguration
  else
    .ok (bw * 16 + odr)

/-- Modelled from the spec: `encode_range(range) -> byte` accepts only range
codes from the sensor's fixed set (the source's `ACCEL_RANGE_*` codes for the
accelerometer, codes up to `GYRO_RANGE_MAX` for the gyroscope). -/
def encode_range (s : SensorKind) (r : Nat) : Except DriverError Nat :=
  match s with
  | .accel =>
    if r = ACCEL_RANGE_2G ∨ r = ACCEL_RANGE_4G ∨ r = ACCEL_RANGE_8G ∨ r = ACCEL_RANGE_16G
    then .ok r
    else .error .InvalidConfiguration
  | .gyro =>
    if r ≤ GYRO_RANGE_MAX then .ok r else .error .InvalidConfiguration

/-- Configuration register address per sensor (`ACC_CONF`/`GYR_CONF`). -/
def confRegAddr : SensorKind → Nat
  | .accel => 0x40
  | .gyro => 0x42

/-- Range register address per sensor (`ACC_RANGE`/`GYR_RANGE`). -/
def rangeRegAddr : SensorKind → Nat
  | .accel => 0x41
  | .gyro => 0x43

/-- Modelled from the spec: the driver operation around `encode_odr_bw`;
returns the result together with the trace of bus writes performed.  An
encoder failure happens before any bus write is attempted, so the trace is
empty on error. -/
def set_odr_bw (s : SensorKind) (odr bw : Nat) : Except DriverError Nat × List (Nat × Nat) :=
  match encode_odr_bw s odr bw with
  | .error e => (.error e, [])
  | .ok v => (.ok v, [(confRegAddr s, v)])

/-- Modelled from the spec: the driver operation around `encode_range`, with
its bus-write trace; empty on error. -/
def set_range (s : SensorKind) (r : Nat) : Except DriverError Nat × List (Nat × Nat) :=
  match encode_range s r with
  | .error e => (.error e, [])
  | .ok v => (.ok v, [(rangeRegAddr s, v)])

/-- Modelled from the spec: `apply_masked(register_value, mask, shifted_field)`
zeroes the mask bits of the register byte and ORs in the new masked field,
preserving all bits outside the mask (read-modify-write discipline). -/
def apply_masked (register_value mask shifted_field : Nat) : Nat :=
  (register_value &&& (255 ^^^ mask)) ||| (shifted_field &&& mask)

/-! ### Register map, embedded from `src/register.rs` -/

/-- Register addresses, from the `Register` enum of `src/register.rs`. -/
inductive Register where
  | CHIP_ID
  | ERROR_REG
  | PMU_STATUS
  | DATA
  | SENSORTIME
  | STATUS
  | INT_STATUS
  | TEMPERATURE
  | FIFO_LENGTH
  | FIFO_DATA
  | ACC_CONF
  | ACC_RANGE
  | GYR_CONF
  | GYR_RANGE
  | MAG_CONF
  | FIFO_DOWNS
  | FIFO_CONFIG
  | MAG_IF
  | INT_EN
  | INT_OUT_CTRL
  | INT_LATCH
  | INT_MAP
  | INT_DATA
  | INT_LOWHIGH
  | INT_MOTION
  | INT_TAP
  | INT_ORIENT
  | INT_FLAT
  | FOC_CONF
  | CONF
  | IF_CONF
  | PMU_TRIGGER
  | SELF_TEST
  | NV_CONF
  | OFFSET
  | STEP_CNT
  | STEP_CONF
  | CMD
deriving DecidableEq

/-- `Register::addr`, from `src/register.rs` (the enum discriminants). -/
def Register.addr : Register → Nat
  | .CHIP_ID => 0x00
  | .ERROR_REG => 0x02
  | .PMU_STATUS => 0x03
  | .DATA => 0x04
  | .SENSORTIME => 0x18
  | .STATUS => 0x1B
  | .INT_STATUS => 0x1C
  | .TEMPERATURE => 0x20
  | .FIFO_LENGTH => 0x22
  | .FIFO_DATA => 0x24
  | .ACC_CONF => 0x40
  | .ACC_RANGE => 0x41
  | .GYR_CONF => 0x42
  | .GYR_RANGE => 0x43
  | .MAG_CONF => 0x44
  | .FIFO_DOWNS => 0x45
  | .FIFO_CONFIG => 0x46
  | .MAG_IF => 0x4B
  | .INT_EN => 0x50
  | .INT_OUT_CTRL => 0x53
  | .INT_LATCH => 0x54
  | .INT_MAP => 0x55
  | .INT_DATA => 0x58
  | .INT_LOWHIGH => 0x5A
  | .INT_MOTION => 0x5F
  | .INT_TAP => 0x63
  | .INT_ORIENT => 0x65
  | .INT_FLAT => 0x67
  | .FOC_CONF => 0x69
  | .CONF => 0x6A
  | .IF_CONF => 0x6B
  | .PMU_TRIGGER => 0x6C
  | .SELF_TEST => 0x6D
  | .NV_CONF => 0x70
  | .OFFSET => 0x71
  | .STEP_CNT => 0x78
  | .STEP_CONF => 0x7A
  | .CMD => 0x7E

/-- `Register::read_only`, translated clause for clause from
`src/register.rs`. -/
def Register.read_only : Register → Bool
  | .CHIP_ID
  | .ERROR_REG
  | .PMU_STATUS
  | .DATA
  | .SENSORTIME
  | .STATUS
  | .INT_STATUS
  | .TEMPERATURE
  | .FIFO_LENGTH
  | .FIFO_DATA
  | .STEP_CNT => true
  | _ => false

/-- Modelled from the spec: a register write consults the compile-time
capability tag and rejects a read-only target locally, before any transport
call; the second component is the trace of transport writes performed. -/
def write_register (r : Register) (v : Nat) : Except DriverError Unit × List (Nat × Nat) :=
  if r.read_only then (.error .WriteToReadOnly, []) else (.ok (), [(r.addr, v)])

/-! ### Arithmetic helper lemmas -/

theorem u16le_mod_div (v : Nat) : u16le (v % 256) (v / 256) = v := by
  unfold u16le; omega

theorem i16le_mod_div (v : Nat) : i16le (v % 256) (v / 256) = toI16 v := by
  unfold i16le u16le
  congr 1
  omega

theorem u24le_bytes (t : Nat) : u24le (t % 256) (t / 256 % 256) (t / 65536) = t := by
  unfold u24le; omega

theorem enc16_pair (b0 b1 : Nat) (h : b0 < 256) : enc16 (u16le b0 b1) = [b0, b1] := by
  simp only [enc16, u16le, List.cons.injEq, and_true]
  omega

/-! ### Parser facts -/

theorem parseMagO_some (p : List Nat) (fr : List RawFrame) (p' : List Nat)
    (h : parseMagO p = some (fr, p')) : p.length = 8 + p'.length := by
  rcases p with _ | ⟨a0, _ | ⟨a1, _ | ⟨a2, _ | ⟨a3, _ | ⟨a4, _ | ⟨a5, _ | ⟨a6, _ | ⟨a7, t⟩⟩⟩⟩⟩⟩⟩⟩ <;>
    simp_all [parseMagO]
  omega

theorem parseGyroO_some (p : List Nat) (fr : List RawFrame) (p' : List Nat)
    (h : parseGyroO p = some (fr, p')) : p.length = 6 + p'.length := by
  rcases p with _ | ⟨a0, _ | ⟨a1, _ | ⟨a2, _ | ⟨a3, _ | ⟨a4, _ | ⟨a5, t⟩⟩⟩⟩⟩⟩ <;>
    simp_all [parseGyroO]
  omega

theorem parseAccelO_some (p : List Nat) (fr : List RawFrame) (p' : List Nat)
    (h : parseAccelO p = some (fr, p')) : p.length = 6 + p'.length := by
  rcases p with _ | ⟨a0, _ | ⟨a1, _ | ⟨a2, _ | ⟨a3, _ | ⟨a4, _ | ⟨a5, t⟩⟩⟩⟩⟩⟩ <;>
    simp_all [parseAccelO]
  omega

theorem parseMagO_isSome (p : List Nat) (h : 8 ≤ p.length) : (parseMagO p).isSome = true := by
  rcases p with _ | ⟨a0, _ | ⟨a1, _ | ⟨a2, _ | ⟨a3, _ | ⟨a4, _ | ⟨a5, _ | ⟨a6, _ | ⟨a7, t⟩⟩⟩⟩⟩⟩⟩⟩ <;>
    simp_all [parseMagO]

theorem parseGyroO_isSome (p : List Nat) (h : 6 ≤ p.length) : (parseGyroO p).isSome = true := by
  rcases p with _ | ⟨a0, _ | ⟨a1, _ | ⟨a2, _ | ⟨a3, _ | ⟨a4, _ | ⟨a5, t⟩⟩⟩⟩⟩⟩ <;>
    simp_all [parseGyroO]

theorem parseAccelO_isSome (p : List Nat) (h : 6 ≤ p.length) : (parseAccelO p).isSome = true := by
  rcases p with _ | ⟨a0, _ | ⟨a1, _ | ⟨a2, _ | ⟨a3, _ | ⟨a4, _ | ⟨a5, t⟩⟩⟩⟩⟩⟩ <;>
    simp_all [parseAccelO]

theorem optStep_some_length (enabled : Bool)
    (parser : List Nat → Option (List RawFrame × List Nat)) (need : Nat)
    (hp : ∀ q fr q', parser q = some (fr, q') → q.length = need + q'.length)
    (p : List Nat) (fr : List RawFrame) (p' : List Nat)
    (h : (if enabled then parser p else some ([], p)) = some (fr, p')) :
    p.length = (if enabled then need else 0) + p'.length := by
  cases enabled
  · simp at h ⊢
    rw [← h.2]
  · simp at h ⊢
    exact hp p fr p' h

theorem optStep_isSome (enabled : Bool)
    (parser : List Nat → Option (List RawFrame × List Nat)) (need : Nat)
    (hp : ∀ q, need ≤ q.length → (parser q).isSome = true)
    (p : List Nat) (h : (if enabled then need else 0) ≤ p.length) :
    (if enabled then parser p else some ([], p)).isSome = true := by
  cases enabled
  · simp
  · simp at h ⊢
    exact hp p h

theorem parseData_some (m g a : Bool) (p : List Nat) (fr : List RawFrame) (p' : List Nat)
    (h : parseData m g a p = some (fr, p')) : p.length = dataLen m g a + p'.length := by
  unfold parseData at h
  rw [Option.bind_eq_some] at h
  obtain ⟨⟨fr1, p1⟩, h1, h⟩ := h
  rw [Option.bind_eq_some] at h
  obtain ⟨⟨fr2, p2⟩, h2, h⟩ := h
  rw [Option.map_eq_some'] at h
  obtain ⟨⟨fr3, p3⟩, h3, heq⟩ := h
  have hp3 : p' = p3 := by
    have := congrArg Prod.snd heq
    simpa using this.symm
  subst hp3
  have l1 := optStep_some_length m parseMagO FIFO_M_LENGTH parseMagO_some p fr1 p1 h1
  have l2 := optStep_some_length g parseGyroO FIFO_G_LENGTH parseGyroO_some p1 fr2 p2 h2
  have l3 := optStep_some_length a parseAccelO FIFO_A_LENGTH parseAccelO_some p2 fr3 p' h3
  have hM : FIFO_M_LENGTH = 8 := rfl
  have hG : FIFO_G_LENGTH = 6 := rfl
  have hA : FIFO_A_LENGTH = 6 := rfl
  unfold dataLen
  split_ifs at l1 l2 l3 ⊢ <;> omega

theorem parseData_isSome (m g a : Bool) (p : List Nat) (h : dataLen m g a ≤ p.length) :
    (parseData m g a p).isSome = true := by
  unfold parseData
  unfold dataLen at h
  have hM : FIFO_M_LENGTH = 8 := rfl
  have hG : FIFO_G_LENGTH = 6 := rfl
  have hA : FIFO_A_LENGTH = 6 := rfl
  have s1 : (if m then parseMagO p else some ([], p)).isSome = true := by
    refine optStep_isSome m parseMagO FIFO_M_LENGTH parseMagO_isSome p ?_
    split_ifs at h ⊢ <;> omega
  obtain ⟨⟨fr1, p1⟩, h1⟩ := Option.isSome_iff_exists.mp s1
  have l1 := optStep_some_length m parseMagO FIFO_M_LENGTH parseMagO_some p fr1 p1 h1
  have s2 : (if g then parseGyroO p1 else some ([], p1)).isSome = true := by
    refine optStep_isSome g parseGyroO FIFO_G_LENGTH parseGyroO_isSome p1 ?_
    split_ifs at h l1 ⊢ <;> omega
  obtain ⟨⟨fr2, p2⟩, h2⟩ := Option.isSome_iff_exists.mp s2
  have l2 := optStep_some_length g parseGyroO FIFO_G_LENGTH parseGyroO_some p1 fr2 p2 h2
  have s3 : (if a then parseAccelO p2 else some ([], p2)).isSome = true := by
    refine optStep_isSome a parseAccelO FIFO_A_LENGTH parseAccelO_isSome p2 ?_
    split_ifs at h l1 l2 ⊢ <;> omega
  obtain ⟨⟨fr3, p3⟩, h3⟩ := Option.isSome_iff_exists.mp s3
  rw [h1]
  simp only [Option.some_bind]
  rw [h2]
  simp only [Option.some_bind]
  rw [h3]
  rfl

theorem parseData_none_of_short (m g a : Bool) (p : List Nat)
    (h : p.length < dataLen m g a) : parseData m g a p = none := by
  rcases hp : parseData m g a p with _ | ⟨fr, p'⟩
  · rfl
  · have := parseData_some m g a p fr p' hp
    omega

theorem parseData_none_length (m g a : Bool) (p : List Nat)
    (h : parseData m g a p = none) : p.length < dataLen m g a := by
  by_contra hc
  have := parseData_isSome m g a p (by omega)
  simp [h] at this

theorem dataLen_le (m g a : Bool) : dataLen m g a ≤ 20 := by
  unfold dataLen FIFO_M_LENGTH FIFO_G_LENGTH FIFO_A_LENGTH
  cases m <;> cases g <;> cases a <;> simp

/-! ### Behaviour of the headered decoder on encoded frames -/

theorem decodeH_nil (fuel off : Nat) : decodeH fuel [] off = ⟨[], off, [], none⟩ := by
  cases fuel <;> rfl

theorem decodeH_frame_step (f : EncFrame) (hf : validFrame f = true) (rest : List Nat)
    (off fuel : Nat) :
    decodeH (fuel + 1) (encodeFrame f ++ rest) off =
      ⟨framesOf1 f ++ (decodeH fuel rest (off + (encodeFrame f).length)).frames,
       (decodeH fuel rest (off + (encodeFrame f).length)).consumed,
       (decodeH fuel rest (off + (encodeFrame f).length)).leftover,
       (decodeH fuel rest (off + (encodeFrame f).length)).error⟩ := by
  cases f with
  | data mo go ao =>
    rcases mo with _ | ⟨mx, my, mz, mr⟩ <;> rcases go with _ | ⟨gx, gy, gz⟩ <;>
      rcases ao with _ | ⟨ax, ay, az⟩
    · simp [validFrame] at hf
    all_goals
      simp [decodeH, encodeFrame, encMag, encGyro, encAccel, enc16, headOf, parseData,
        parseMagO, parseGyroO, parseAccelO, isDataHead, headMag, headGyro, headAccel,
        dataLen, framesOf1, i16le_mod_div, u16le_mod_div, FIFO_M_LENGTH, FIFO_G_LENGTH,
        FIFO_A_LENGTH, FIFO_HEAD_SKIP_FRAME, FIFO_HEAD_SENSOR_TIME, FIFO_HEAD_INPUT_CONFIG,
        FIFO_HEAD_OVER_READ, FIFO_HEAD_A, FIFO_HEAD_G, FIFO_HEAD_G_A, FIFO_HEAD_M,
        FIFO_HEAD_M_A, FIFO_HEAD_M_G, FIFO_HEAD_M_G_A, List.append_assoc]
  | skip c =>
    simp [decodeH, encodeFrame, isDataHead, framesOf1, FIFO_HEAD_SKIP_FRAME,
      FIFO_HEAD_SENSOR_TIME, FIFO_HEAD_INPUT_CONFIG, FIFO_HEAD_OVER_READ, FIFO_HEAD_A,
      FIFO_HEAD_G, FIFO_HEAD_G_A, FIFO_HEAD_M, FIFO_HEAD_M_A, FIFO_HEAD_M_G,
      FIFO_HEAD_M_G_A]
  | time t =>
    simp [decodeH, encodeFrame, isDataHead, framesOf1, u24le_bytes, SENSOR_TIME_LENGTH,
      FIFO_HEAD_SKIP_FRAME, FIFO_HEAD_SENSOR_TIME, FIFO_HEAD_INPUT_CONFIG,
      FIFO_HEAD_OVER_READ, FIFO_HEAD_A, FIFO_HEAD_G, FIFO_HEAD_G_A, FIFO_HEAD_M,
      FIFO_HEAD_M_A, FIFO_HEAD_M_G, FIFO_HEAD_M_G_A]
  | cfgChange =>
    simp [decodeH, encodeFrame, isDataHead, framesOf1, FIFO_HEAD_SKIP_FRAME,
      FIFO_HEAD_SENSOR_TIME, FIFO_HEAD_INPUT_CONFIG, FIFO_HEAD_OVER_READ, FIFO_HEAD_A,
      FIFO_HEAD_G, FIFO_HEAD_G_A, FIFO_HEAD_M, FIFO_HEAD_M_A, FIFO_HEAD_M_G,
      FIFO_HEAD_M_G_A]

theorem encodeFrames_append (fs gs : List EncFrame) :
    encodeFrames (fs ++ gs) = encodeFrames fs ++ encodeFrames gs := by
  induction fs with
  | nil => simp [encodeFrames]
  | cons f fs ih => simp [encodeFrames, ih, List.append_assoc]

theorem framesOf_append (fs gs : List EncFrame) :
    framesOf (fs ++ gs) = framesOf fs ++ framesOf gs := by
  induction fs with
  | nil => simp [framesOf]
  | cons f fs ih => simp [framesOf, ih, List.append_assoc]

theorem length_encodeFrame_pos (f : EncFrame) : 1 ≤ (encodeFrame f).length := by
  cases f <;> simp [encodeFrame]

theorem length_le_length_encodeFrames (fs : List EncFrame) :
    fs.length ≤ (encodeFrames fs).length := by
  induction fs with
  | nil => simp [encodeFrames]
  | cons f fs ih =>
    have := length_encodeFrame_pos f
    simp only [encodeFrames, List.length_append, List.length_cons]
    omega

theorem decodeH_encodeFrames (fs : List EncFrame) (hv : ∀ f ∈ fs, validFrame f = true) :
    ∀ (suffix : List Nat) (off fuel : Nat), fs.length ≤ fuel →
    decodeH fuel (encodeFrames fs ++ suffix) off =
      ⟨framesOf fs ++
          (decodeH (fuel - fs.length) suffix (off + (encodeFrames fs).length)).frames,
       (decodeH (fuel - fs.length) suffix (off + (encodeFrames fs).length)).consumed,
       (decodeH (fuel - fs.length) suffix (off + (encodeFrames fs).length)).leftover,
       (decodeH (fuel - fs.length) suffix (off + (encodeFrames fs).length)).error⟩ := by
  induction fs with
  | nil =>
    intro suffix off fuel _
    simp [encodeFrames, framesOf]
  | cons f fs ih =>
    intro suffix off fuel hfuel
    obtain ⟨n, rfl⟩ : ∃ n, fuel = n + 1 := ⟨fuel - 1, by simp at hfuel; omega⟩
    have hf : validFrame f = true := hv f (by simp)
    have hv' : ∀ x ∈ fs, validFrame x = true := fun x hx => hv x (by simp [hx])
    simp only [encodeFrames, List.append_assoc]
    rw [decodeH_frame_step f hf]
    rw [ih hv' suffix (off + (encodeFrame f).length) n (by simp at hfuel; omega)]
    simp [framesOf, encodeFrames, List.length_append, List.append_assoc, Nat.add_assoc,
      Nat.succ_sub_succ]

/-- Modelled operations obey the spec's complete-buffer contract: decoding a
buffer that is a concatenation of complete valid frames reproduces the frame
sequence, consumes the whole buffer, and leaves nothing over. -/
theorem decode_encodeFrames (fs : List EncFrame) (cfg : FifoConfig)
    (hm : cfg.headerMode = true) (hv : ∀ f ∈ fs, validFrame f = true) :
    decode (encodeFrames fs) cfg none = ⟨framesOf fs, (encodeFrames fs).length, [], none⟩ := by
  unfold decode
  rw [hm]
  simp only [Option.getD_none, List.nil_append, if_true]
  have h := decodeH_encodeFrames fs hv [] 0 (encodeFrames fs).length
    (length_le_length_encodeFrames fs)
  rw [List.append_nil] at h
  rw [h, decodeH_nil]
  simp

/-! ### Partial trailing frames -/

theorem decodeH_data_short (h : Nat) (hd : isDataHead h = true) (p : List Nat)
    (hp : p.length < dataLen (headMag h) (headGyro h) (headAccel h)) (off fuel : Nat) :
    decodeH (fuel + 1) (h :: p) off = ⟨[], off, h :: p, none⟩ := by
  have hnone := parseData_none_of_short _ _ _ p hp
  have h80 : ¬(h = FIFO_HEAD_OVER_READ) := by
    intro he
    rw [he] at hd
    simp [isDataHead, FIFO_HEAD_OVER_READ, FIFO_HEAD_A, FIFO_HEAD_G, FIFO_HEAD_G_A,
      FIFO_HEAD_M, FIFO_HEAD_M_A, FIFO_HEAD_M_G, FIFO_HEAD_M_G_A] at hd
  simp [decodeH, h80, hd, hnone]

theorem decodeH_truncated (f : EncFrame) (hf : validFrame f = true) (k off fuel : Nat)
    (hk1 : 0 < k) (hk2 : k < (encodeFrame f).length) :
    decodeH (fuel + 1) ((encodeFrame f).take k) off =
      ⟨[], off, (encodeFrame f).take k, none⟩ := by
  cases f with
  | data mo go ao =>
    rcases mo with _ | ⟨mx, my, mz, mr⟩ <;> rcases go with _ | ⟨gx, gy, gz⟩ <;>
      rcases ao with _ | ⟨ax, ay, az⟩
    · simp [validFrame] at hf
    all_goals
      obtain ⟨j, rfl⟩ : ∃ j, k = j + 1 := ⟨k - 1, by omega⟩
      simp only [encodeFrame, encMag, encGyro, encAccel, enc16, headOf, Option.isSome_some,
        Option.isSome_none, Option.map_some, Option.map_none, Option.getD_some,
        Option.getD_none, List.append_assoc, List.cons_append, List.nil_append,
        List.length_cons, List.length_nil] at hk2 ⊢
      norm_num at hk2 ⊢
      exact decodeH_data_short _ (by decide) _
        (by
          simp [List.length_take, dataLen, headMag, headGyro, headAccel, encMag, encGyro,
            encAccel, enc16, FIFO_M_LENGTH, FIFO_G_LENGTH, FIFO_A_LENGTH, FIFO_HEAD_A,
            FIFO_HEAD_G, FIFO_HEAD_G_A, FIFO_HEAD_M, FIFO_HEAD_M_A, FIFO_HEAD_M_G,
            FIFO_HEAD_M_G_A] at hk2 ⊢
          omega)
        off fuel
  | skip c =>
    have hk : k = 1 := by
      simp [encodeFrame] at hk2
      omega
    subst hk
    have ht : (encodeFrame (EncFrame.skip c)).take 1 = [FIFO_HEAD_SKIP_FRAME] := rfl
    rw [ht]
    simp [decodeH, isDataHead, FIFO_HEAD_SKIP_FRAME, FIFO_HEAD_SENSOR_TIME,
      FIFO_HEAD_INPUT_CONFIG, FIFO_HEAD_OVER_READ, FIFO_HEAD_A, FIFO_HEAD_G,
      FIFO_HEAD_G_A, FIFO_HEAD_M, FIFO_HEAD_M_A, FIFO_HEAD_M_G, FIFO_HEAD_M_G_A]
  | time t =>
    have hk : k = 1 ∨ k = 2 ∨ k = 3 := by
      simp [encodeFrame] at hk2
      omega
    rcases hk with rfl | rfl | rfl
    · have ht : (encodeFrame (EncFrame.time t)).take 1 = [FIFO_HEAD_SENSOR_TIME] := rfl
      rw [ht]
      simp [decodeH, isDataHead, FIFO_HEAD_SKIP_FRAME, FIFO_HEAD_SENSOR_TIME,
        FIFO_HEAD_INPUT_CONFIG, FIFO_HEAD_OVER_READ, FIFO_HEAD_A, FIFO_HEAD_G,
        FIFO_HEAD_G_A, FIFO_HEAD_M, FIFO_HEAD_M_A, FIFO_HEAD_M_G, FIFO_HEAD_M_G_A]
    · have ht : (encodeFrame (EncFrame.time t)).take 2 =
          [FIFO_HEAD_SENSOR_TIME, t % 256] := rfl
      rw [ht]
      simp [decodeH, isDataHead, FIFO_HEAD_SKIP_FRAME, FIFO_HEAD_SENSOR_TIME,
        FIFO_HEAD_INPUT_CONFIG, FIFO_HEAD_OVER_READ, FIFO_HEAD_A, FIFO_HEAD_G,
        FIFO_HEAD_G_A, FIFO_HEAD_M, FIFO_HEAD_M_A, FIFO_HEAD_M_G, FIFO_HEAD_M_G_A]
    · have ht : (encodeFrame (EncFrame.time t)).take 3 =
          [FIFO_HEAD_SENSOR_TIME, t % 256, t / 256 % 256] := rfl
      rw [ht]
      simp [decodeH, isDataHead, FIFO_HEAD_SKIP_FRAME, FIFO_HEAD_SENSOR_TIME,
        FIFO_HEAD_INPUT_CONFIG, FIFO_HEAD_OVER_READ, FIFO_HEAD_A, FIFO_HEAD_G,
        FIFO_HEAD_G_A, FIFO_HEAD_M, FIFO_HEAD_M_A, FIFO_HEAD_M_G, FIFO_HEAD_M_G_A]
  | cfgChange =>
    simp [encodeFrame] at hk2
    omega

/-! ### Consumption and leftover bounds -/

theorem decodeH_consumed_le :
    ∀ (fuel : Nat) (buf : List Nat) (off : Nat),
      (decodeH fuel buf off).consumed ≤ off + buf.length := by
  intro fuel
  induction fuel with
  | zero =>
    intro buf off
    simp [decodeH]
  | succ n ih =>
    intro buf off
    cases buf with
    | nil => simp [decodeH]
    | cons h rest =>
      simp only [decodeH]
      split_ifs with h80 hdata hskip htime hcfg
      · simp only [List.length_cons]
        omega
      · rcases hp : parseData (headMag h) (headGyro h) (headAccel h) rest with _ | ⟨fr, rest2⟩
        · simp [hp]
        · have hl := parseData_some _ _ _ rest fr rest2 hp
          have hr := ih rest2 (off + (1 + dataLen (headMag h) (headGyro h) (headAccel h)))
          simp only [hp, List.length_cons]
          omega
      · cases rest with
        | nil => simp
        | cons c rest2 =>
          have hr := ih rest2 (off + 2)
          simp only [List.length_cons]
          omega
      · rcases rest with _ | ⟨b0, _ | ⟨b1, _ | ⟨b2, rest3⟩⟩⟩
        · simp
        · simp
        · simp
        · have hr := ih rest3 (off + (1 + SENSOR_TIME_LENGTH))
          have hS : SENSOR_TIME_LENGTH = 3 := rfl
          simp only [List.length_cons]
          omega
      · have hr := ih rest (off + 1)
        simp only [List.length_cons]
        omega
      · simp

theorem decodeH_leftover_le :
    ∀ (fuel : Nat) (buf : List Nat) (off : Nat), buf.length ≤ fuel →
      (decodeH fuel buf off).leftover.length ≤ 20 := by
  intro fuel
  induction fuel with
  | zero =>
    intro buf off hb
    have : buf = [] := by
      cases buf with
      | nil => rfl
      | cons x xs => simp at hb
    subst this
    simp [decodeH]
  | succ n ih =>
    intro buf off hb
    cases buf with
    | nil => simp [decodeH]
    | cons h rest =>
      have hrest : rest.length ≤ n := by
        simp at hb
        omega
      simp only [decodeH]
      split_ifs with h80 hdata hskip htime hcfg
      · simp
      · rcases hp : parseData (headMag h) (headGyro h) (headAccel h) rest with _ | ⟨fr, rest2⟩
        · have hshort := parseData_none_length _ _ _ rest hp
          have hdl := dataLen_le (headMag h) (headGyro h) (headAccel h)
          simp only [hp, List.length_cons]
          omega
        · have hl := parseData_some _ _ _ rest fr rest2 hp
          have hr := ih rest2 (off + (1 + dataLen (headMag h) (headGyro h) (headAccel h)))
            (by omega)
          simp only [hp]
          exact hr
      · cases rest with
        | nil => simp
        | cons c rest2 =>
          have hr := ih rest2 (off + 2) (by simp at hrest; omega)
          exact hr
      · rcases rest with _ | ⟨b0, _ | ⟨b1, _ | ⟨b2, rest3⟩⟩⟩
        · simp
        · simp
        · simp
        · have hr := ih rest3 (off + (1 + SENSOR_TIME_LENGTH)) (by simp at hrest; omega)
          exact hr
      · exact ih rest (off + 1) hrest
      · simp

theorem decodeHL_consumed_le :
    ∀ (fuel : Nat) (buf : List Nat) (off : Nat) (m g a : Bool),
      (decodeHL fuel buf off m g a).consumed ≤ off + buf.length := by
  intro fuel
  induction fuel with
  | zero =>
    intro buf off m g a
    simp [decodeHL]
  | succ n ih =>
    intro buf off m g a
    cases buf with
    | nil => simp [decodeHL]
    | cons b rest =>
      simp only [decodeHL]
      rcases hp : parseData m g a (b :: rest) with _ | ⟨fr, rest2⟩
      · simp
      · have hl := parseData_some _ _ _ (b :: rest) fr rest2 hp
        have hr := ih rest2 (off + dataLen m g a) m g a
        simp only [List.length_cons] at hl ⊢
        omega

theorem decodeHL_leftover_le :
    ∀ (fuel : Nat) (buf : List Nat) (off : Nat) (m g a : Bool), 0 < dataLen m g a →
      buf.length ≤ fuel → (decodeHL fuel buf off m g a).leftover.length ≤ 20 := by
  intro fuel
  induction fuel with
  | zero =>
    intro buf off m g a hpos hb
    have : buf = [] := by
      cases buf with
      | nil => rfl
      | cons x xs => simp at hb
    subst this
    simp [decodeHL]
  | succ n ih =>
    intro buf off m g a hpos hb
    cases buf with
    | nil => simp [decodeHL]
    | cons b rest =>
      simp only [decodeHL]
      rcases hp : parseData m g a (b :: rest) with _ | ⟨fr, rest2⟩
      · have hshort := parseData_none_length _ _ _ (b :: rest) hp
        have hdl := dataLen_le m g a
        simp only [List.length_cons] at hshort ⊢
        omega
      · have hl := parseData_some _ _ _ (b :: rest) fr rest2 hp
        have hr := ih rest2 (off + dataLen m g a) m g a hpos
          (by simp only [List.length_cons] at hb hl; omega)
        exact hr

/-! ### Single-frame decodes -/

theorem decodeH_malformed (b : Nat) (hb : recognizedHead b = false) (rest : List Nat)
    (off fuel : Nat) :
    decodeH (fuel + 1) (b :: rest) off =
      ⟨[], off, [], some (DecodeError.MalformedFifoHeader off b)⟩ := by
  simp only [recognizedHead, Bool.or_eq_false_iff, decide_eq_false_iff_not] at hb
  obtain ⟨⟨⟨⟨h1, h2⟩, h3⟩, h4⟩, h5⟩ := hb
  simp [decodeH, h1, h2, h3, h4, h5]

theorem decode_one_skip (cfg : FifoConfig) (hm : cfg.headerMode = true) (c : Nat)
    (hc : c < 256) :
    decode [FIFO_HEAD_SKIP_FRAME, c] cfg none =
      ⟨[RawFrame.SkipFrame c], 2, [], none⟩ := by
  have he : encodeFrames [EncFrame.skip c] = [FIFO_HEAD_SKIP_FRAME, c] := rfl
  rw [← he, decode_encodeFrames _ cfg hm (by simp [validFrame]; omega)]
  simp [framesOf, framesOf1, he]

theorem decode_one_time (cfg : FifoConfig) (hm : cfg.headerMode = true) (b0 b1 b2 : Nat)
    (h0 : b0 < 256) (h1 : b1 < 256) (h2 : b2 < 256) :
    decode [FIFO_HEAD_SENSOR_TIME, b0, b1, b2] cfg none =
      ⟨[RawFrame.SensorTime (u24le b0 b1 b2)], 4, [], none⟩ := by
  have he : encodeFrames [EncFrame.time (u24le b0 b1 b2)] =
      [FIFO_HEAD_SENSOR_TIME, b0, b1, b2] := by
    simp [encodeFrames, encodeFrame, u24le]
    omega
  rw [← he, decode_encodeFrames _ cfg hm (by simp [validFrame, u24le]; omega)]
  rw [he]
  simp [framesOf, framesOf1]

theorem decode_one_cfgchange (cfg : FifoConfig) (hm : cfg.headerMode = true) :
    decode [FIFO_HEAD_INPUT_CONFIG] cfg none =
      ⟨[RawFrame.InputConfigChanged], 1, [], none⟩ := by
  have he : encodeFrames [EncFrame.cfgChange] = [FIFO_HEAD_INPUT_CONFIG] := rfl
  rw [← he, decode_encodeFrames _ cfg hm (by simp [validFrame])]
  simp [framesOf, framesOf1, he]

theorem decode_overread (cfg : FifoConfig) (hm : cfg.headerMode = true) (rest : List Nat) :
    decode (FIFO_HEAD_OVER_READ :: rest) cfg none = ⟨[], 1 + rest.length, [], none⟩ := by
  unfold decode
  rw [hm]
  simp [decodeH, FIFO_HEAD_OVER_READ]

theorem decode_one_accel (cfg : FifoConfig) (hm : cfg.headerMode = true)
    (x0 x1 y0 y1 z0 z1 : Nat) (hx0 : x0 < 256) (hx1 : x1 < 256) (hy0 : y0 < 256)
    (hy1 : y1 < 256) (hz0 : z0 < 256) (hz1 : z1 < 256) :
    decode [FIFO_HEAD_A, x0, x1, y0, y1, z0, z1] cfg none =
      ⟨[RawFrame.Accel (i16le x0 x1) (i16le y0 y1) (i16le z0 z1)], 7, [], none⟩ := by
  have he : encodeFrames
      [EncFrame.data none none (some (u16le x0 x1, u16le y0 y1, u16le z0 z1))] =
      [FIFO_HEAD_A, x0, x1, y0, y1, z0, z1] := by
    simp [encodeFrames, encodeFrame, encAccel, headOf, FIFO_HEAD_A,
      enc16_pair x0 x1 hx0, enc16_pair y0 y1 hy0, enc16_pair z0 z1 hz0]
  rw [← he, decode_encodeFrames _ cfg hm (by simp [validFrame, u16le]; omega)]
  rw [he]
  simp [framesOf, framesOf1, i16le]

theorem decode_one_gyro (cfg : FifoConfig) (hm : cfg.headerMode = true)
    (x0 x1 y0 y1 z0 z1 : Nat) (hx0 : x0 < 256) (hx1 : x1 < 256) (hy0 : y0 < 256)
    (hy1 : y1 < 256) (hz0 : z0 < 256) (hz1 : z1 < 256) :
    decode [FIFO_HEAD_G, x0, x1, y0, y1, z0, z1] cfg none =
      ⟨[RawFrame.Gyro (i16le x0 x1) (i16le y0 y1) (i16le z0 z1)], 7, [], none⟩ := by
  have he : encodeFrames
      [EncFrame.data none (some (u16le x0 x1, u16le y0 y1, u16le z0 z1)) none] =
      [FIFO_HEAD_G, x0, x1, y0, y1, z0, z1] := by
    simp [encodeFrames, encodeFrame, encGyro, headOf, FIFO_HEAD_G,
      enc16_pair x0 x1 hx0, enc16_pair y0 y1 hy0, enc16_pair z0 z1 hz0]
  rw [← he, decode_encodeFrames _ cfg hm (by simp [validFrame, u16le]; omega)]
  rw [he]
  simp [framesOf, framesOf1, i16le]

theorem decode_one_mag (cfg : FifoConfig) (hm : cfg.headerMode = true)
    (x0 x1 y0 y1 z0 z1 r0 r1 : Nat) (hx0 : x0 < 256) (hx1 : x1 < 256) (hy0 : y0 < 256)
    (hy1 : y1 < 256) (hz0 : z0 < 256) (hz1 : z1 < 256) (hr0 : r0 < 256) (hr1 : r1 < 256) :
    decode [FIFO_HEAD_M, x0, x1, y0, y1, z0, z1, r0, r1] cfg none =
      ⟨[RawFrame.Mag (i16le x0 x1) (i16le y0 y1) (i16le z0 z1) (u16le r0 r1)],
       9, [], none⟩ := by
  have he : encodeFrames
      [EncFrame.data (some (u16le x0 x1, u16le y0 y1, u16le z0 z1, u16le r0 r1))
        none none] = [FIFO_HEAD_M, x0, x1, y0, y1, z0, z1, r0, r1] := by
    simp [encodeFrames, encodeFrame, encMag, headOf, FIFO_HEAD_M,
      enc16_pair x0 x1 hx0, enc16_pair y0 y1 hy0, enc16_pair z0 z1 hz0,
      enc16_pair r0 r1 hr0]
  rw [← he, decode_encodeFrames _ cfg hm (by simp [validFrame, u16le]; omega)]
  rw [he]
  simp [framesOf, framesOf1, i16le]

theorem decode_one_gyro_accel (cfg : FifoConfig) (hm : cfg.headerMode = true)
    (g0 g1 g2 g3 g4 g5 a0 a1 a2 a3 a4 a5 : Nat)
    (hg0 : g0 < 256) (hg1 : g1 < 256) (hg2 : g2 < 256) (hg3 : g3 < 256) (hg4 : g4 < 256)
    (hg5 : g5 < 256) (ha0 : a0 < 256) (ha1 : a1 < 256) (ha2 : a2 < 256) (ha3 : a3 < 256)
    (ha4 : a4 < 256) (ha5 : a5 < 256) :
    decode [FIFO_HEAD_G_A, g0, g1, g2, g3, g4, g5, a0, a1, a2, a3, a4, a5] cfg none =
      ⟨[RawFrame.Gyro (i16le g0 g1) (i16le g2 g3) (i16le g4 g5),
        RawFrame.Accel (i16le a0 a1) (i16le a2 a3) (i16le a4 a5)], 13, [], none⟩ := by
  have he : encodeFrames
      [EncFrame.data none (some (u16le g0 g1, u16le g2 g3, u16le g4 g5))
        (some (u16le a0 a1, u16le a2 a3, u16le a4 a5))] =
      [FIFO_HEAD_G_A, g0, g1, g2, g3, g4, g5, a0, a1, a2, a3, a4, a5] := by
    simp [encodeFrames, encodeFrame, encGyro, encAccel, headOf, FIFO_HEAD_G_A,
      enc16_pair g0 g1 hg0, enc16_pair g2 g3 hg2, enc16_pair g4 g5 hg4,
      enc16_pair a0 a1 ha0, enc16_pair a2 a3 ha2, enc16_pair a4 a5 ha4]
  rw [← he, decode_encodeFrames _ cfg hm (by simp [validFrame, u16le]; omega)]
  rw [he]
  simp [framesOf, framesOf1, i16le]

theorem decode_one_mag_accel (cfg : FifoConfig) (hm : cfg.headerMode = true)
    (m0 m1 m2 m3 m4 m5 m6 m7 a0 a1 a2 a3 a4 a5 : Nat)
    (hm0 : m0 < 256) (hm1 : m1 < 256) (hm2 : m2 < 256) (hm3 : m3 < 256) (hm4 : m4 < 256)
    (hm5 : m5 < 256) (hm6 : m6 < 256) (hm7 : m7 < 256) (ha0 : a0 < 256) (ha1 : a1 < 256)
    (ha2 : a2 < 256) (ha3 : a3 < 256) (ha4 : a4 < 256) (ha5 : a5 < 256) :
    decode [FIFO_HEAD_M_A, m0, m1, m2, m3, m4, m5, m6, m7, a0, a1, a2, a3, a4, a5]
        cfg none =
      ⟨[RawFrame.Mag (i16le m0 m1) (i16le m2 m3) (i16le m4 m5) (u16le m6 m7),
        RawFrame.Accel (i16le a0 a1) (i16le a2 a3) (i16le a4 a5)], 15, [], none⟩ := by
  have he : encodeFrames
      [EncFrame.data (some (u16le m0 m1, u16le m2 m3, u16le m4 m5, u16le m6 m7)) none
        (some (u16le a0 a1, u16le a2 a3, u16le a4 a5))] =
      [FIFO_HEAD_M_A, m0, m1, m2, m3, m4, m5, m6, m7, a0, a1, a2, a3, a4, a5] := by
    simp [encodeFrames, encodeFrame, encMag, encAccel, headOf, FIFO_HEAD_M_A,
      enc16_pair m0 m1 hm0, enc16_pair m2 m3 hm2, enc16_pair m4 m5 hm4,
      enc16_pair m6 m7 hm6, enc16_pair a0 a1 ha0, enc16_pair a2 a3 ha2,
      enc16_pair a4 a5 ha4]
  rw [← he, decode_encodeFrames _ cfg hm (by simp [validFrame, u16le]; omega)]
  rw [he]
  simp [framesOf, framesOf1, i16le]

theorem decode_one_mag_gyro (cfg : FifoConfig) (hm : cfg.headerMode = true)
    (m0 m1 m2 m3 m4 m5 m6 m7 g0 g1 g2 g3 g4 g5 : Nat)
    (hm0 : m0 < 256) (hm1 : m1 < 256) (hm2 : m2 < 256) (hm3 : m3 < 256) (hm4 : m4 < 256)
    (hm5 : m5 < 256) (hm6 : m6 < 256) (hm7 : m7 < 256) (hg0 : g0 < 256) (hg1 : g1 < 256)
    (hg2 : g2 < 256) (hg3 : g3 < 256) (hg4 : g4 < 256) (hg5 : g5 < 256) :
    decode [FIFO_HEAD_M_G, m0, m1, m2, m3, m4, m5, m6, m7, g0, g1, g2, g3, g4, g5]
        cfg none =
      ⟨[RawFrame.Mag (i16le m0 m1) (i16le m2 m3) (i16le m4 m5) (u16le m6 m7),
        RawFrame.Gyro (i16le g0 g1) (i16le g2 g3) (i16le g4 g5)], 15, [], none⟩ := by
  have he : encodeFrames
      [EncFrame.data (some (u16le m0 m1, u16le m2 m3, u16le m4 m5, u16le m6 m7))
        (some (u16le g0 g1, u16le g2 g3, u16le g4 g5)) none] =
      [FIFO_HEAD_M_G, m0, m1, m2, m3, m4, m5, m6, m7, g0, g1, g2, g3, g4, g5] := by
    simp [encodeFrames, encodeFrame, encMag, encGyro, headOf, FIFO_HEAD_M_G,
      enc16_pair m0 m1 hm0, enc16_pair m2 m3 hm2, enc16_pair m4 m5 hm4,
      enc16_pair m6 m7 hm6, enc16_pair g0 g1 hg0, enc16_pair g2 g3 hg2,
      enc16_pair g4 g5 hg4]
  rw [← he, decode_encodeFrames _ cfg hm (by simp [validFrame, u16le]; omega)]
  rw [he]
  simp [framesOf, framesOf1, i16le]

theorem decode_one_mga (cfg : FifoConfig) (hm : cfg.headerMode = true)
    (m0 m1 m2 m3 m4 m5 m6 m7 g0 g1 g2 g3 g4 g5 a0 a1 a2 a3 a4 a5 : Nat)
    (hm0 : m0 < 256) (hm1 : m1 < 256) (hm2 : m2 < 256) (hm3 : m3 < 256) (hm4 : m4 < 256)
    (hm5 : m5 < 256) (hm6 : m6 < 256) (hm7 : m7 < 256) (hg0 : g0 < 256) (hg1 : g1 < 256)
    (hg2 : g2 < 256) (hg3 : g3 < 256) (hg4 : g4 < 256) (hg5 : g5 < 256) (ha0 : a0 < 256)
    (ha1 : a1 < 256) (ha2 : a2 < 256) (ha3 : a3 < 256) (ha4 : a4 < 256) (ha5 : a5 < 256) :
    decode [FIFO_HEAD_M_G_A, m0, m1, m2, m3, m4, m5, m6, m7, g0, g1, g2, g3, g4, g5,
        a0, a1, a2, a3, a4, a5] cfg none =
      ⟨[RawFrame.Mag (i16le m0 m1) (i16le m2 m3) (i16le m4 m5) (u16le m6 m7),
        RawFrame.Gyro (i16le g0 g1) (i16le g2 g3) (i16le g4 g5),
        RawFrame.Accel (i16le a0 a1) (i16le a2 a3) (i16le a4 a5)], 21, [], none⟩ := by
  have he : encodeFrames
      [EncFrame.data (some (u16le m0 m1, u16le m2 m3, u16le m4 m5, u16le m6 m7))
        (some (u16le g0 g1, u16le g2 g3, u16le g4 g5))
        (some (u16le a0 a1, u16le a2 a3, u16le a4 a5))] =
      [FIFO_HEAD_M_G_A, m0, m1, m2, m3, m4, m5, m6, m7, g0, g1, g2, g3, g4, g5,
        a0, a1, a2, a3, a4, a5] := by
    simp [encodeFrames, encodeFrame, encMag, encGyro, encAccel, headOf, FIFO_HEAD_M_G_A,
      enc16_pair m0 m1 hm0, enc16_pair m2 m3 hm2, enc16_pair m4 m5 hm4,
      enc16_pair m6 m7 hm6, enc16_pair g0 g1 hg0, enc16_pair g2 g3 hg2,
      enc16_pair g4 g5 hg4, enc16_pair a0 a1 ha0, enc16_pair a2 a3 ha2,
      enc16_pair a4 a5 ha4]
  rw [← he, decode_encodeFrames _ cfg hm (by simp [validFrame, u16le]; omega)]
  rw [he]
  simp [framesOf, framesOf1, i16le]

/-! ### Claim theorems: the FIFO decoder -/

/-- Claim C1: for every valid headered buffer formed by concatenating complete
frames, `decode(buffer, config, none)` returns exactly the original sequence
of typed frames in the same order as their bytes appear in the buffer,
consumes exactly the encoded byte count, and returns an empty leftover. -/
theorem C1_decode_complete_headered_buffer (fs : List EncFrame) (cfg : FifoConfig)
    (hm : cfg.headerMode = true) (hv : ∀ f ∈ fs, validFrame f = true) :
    decode (encodeFrames fs) cfg none =
      ⟨framesOf fs, (encodeFrames fs).length, [], none⟩ :=
  decode_encodeFrames fs cfg hm hv

/-- Witness for C1: a concrete skip + mag/accel data + sensor-time buffer. -/
theorem C1_witness :
    decode (encodeFrames [EncFrame.skip 5,
        EncFrame.data (some (1, 2, 3, 4)) none (some (65535, 7, 8)),
        EncFrame.time 197121]) ⟨true, true, true, true, false, 0, 0⟩ none =
      ⟨framesOf [EncFrame.skip 5,
          EncFrame.data (some (1, 2, 3, 4)) none (some (65535, 7, 8)),
          EncFrame.time 197121],
        (encodeFrames [EncFrame.skip 5,
          EncFrame.data (some (1, 2, 3, 4)) none (some (65535, 7, 8)),
          EncFrame.time 197121]).length, [], none⟩ :=
  C1_decode_complete_headered_buffer _ _ rfl (by decide)

/-- Claim C2: decoding a buffer truncated in the middle of a frame yields all
fully-formed preceding frames and a leftover equal to the truncated tail, and
prepending that leftover to the next buffer decodes to the same frames as
decoding the original untruncated concatenation in one call. -/
theorem C2_decode_truncated_midframe (cfg : FifoConfig) (fs gs : List EncFrame)
    (f : EncFrame) (k : Nat) (hm : cfg.headerMode = true)
    (hfs : ∀ x ∈ fs, validFrame x = true) (hf : validFrame f = true)
    (hgs : ∀ x ∈ gs, validFrame x = true) (hk1 : 0 < k)
    (hk2 : k < (encodeFrame f).length) :
    decode (encodeFrames fs ++ (encodeFrame f).take k) cfg none =
      ⟨framesOf fs, (encodeFrames fs).length, (encodeFrame f).take k, none⟩ ∧
    (decode ((decode (encodeFrames fs ++ (encodeFrame f).take k) cfg none).leftover ++
        ((encodeFrame f).drop k ++ encodeFrames gs)) cfg none).frames =
      framesOf1 f ++ framesOf gs ∧
    (decode (encodeFrames fs ++ (encodeFrame f).take k) cfg none).frames ++
        (decode ((decode (encodeFrames fs ++ (encodeFrame f).take k) cfg none).leftover ++
          ((encodeFrame f).drop k ++ encodeFrames gs)) cfg none).frames =
      (decode ((encodeFrames fs ++ (encodeFrame f).take k) ++
        ((encodeFrame f).drop k ++ encodeFrames gs)) cfg none).frames := by
  have hv2 : ∀ x ∈ f :: gs, validFrame x = true := by
    intro x hx
    rcases List.mem_cons.mp hx with rfl | hx2
    · exact hf
    · exact hgs x hx2
  have hv3 : ∀ x ∈ fs ++ f :: gs, validFrame x = true := by
    intro x hx
    rcases List.mem_append.mp hx with hx1 | hx1
    · exact hfs x hx1
    · exact hv2 x hx1
  have hjoin : (encodeFrame f).take k ++ ((encodeFrame f).drop k ++ encodeFrames gs) =
      encodeFrames (f :: gs) := by
    rw [← List.append_assoc, List.take_append_drop]
    rfl
  have hfull : (encodeFrames fs ++ (encodeFrame f).take k) ++
      ((encodeFrame f).drop k ++ encodeFrames gs) = encodeFrames (fs ++ f :: gs) := by
    rw [List.append_assoc, hjoin, ← encodeFrames_append]
  have first : decode (encodeFrames fs ++ (encodeFrame f).take k) cfg none =
      ⟨framesOf fs, (encodeFrames fs).length, (encodeFrame f).take k, none⟩ := by
    unfold decode
    rw [hm]
    simp only [Option.getD_none, List.nil_append, if_true]
    have hlen := length_le_length_encodeFrames fs
    have hfuel : fs.length ≤ (encodeFrames fs ++ (encodeFrame f).take k).length := by
      simp only [List.length_append]
      omega
    rw [decodeH_encodeFrames fs hfs _ 0 _ hfuel]
    obtain ⟨j, hj⟩ : ∃ j,
        (encodeFrames fs ++ (encodeFrame f).take k).length - fs.length = j + 1 := by
      refine ⟨(encodeFrames fs ++ (encodeFrame f).take k).length - fs.length - 1, ?_⟩
      have htk : ((encodeFrame f).take k).length = k := by
        simp only [List.length_take]
        omega
      simp only [List.length_append, htk]
      omega
    rw [hj, decodeH_truncated f hf k _ _ hk1 hk2]
    simp
  refine ⟨first, ?_, ?_⟩
  · simp only [first]
    rw [hjoin, decode_encodeFrames (f :: gs) cfg hm hv2]
    simp [framesOf]
  · simp only [first]
    rw [hjoin, hfull, decode_encodeFrames (f :: gs) cfg hm hv2,
      decode_encodeFrames (fs ++ f :: gs) cfg hm hv3]
    simp [framesOf_append, framesOf]

/-- Witness for C2: a skip frame followed by a sensor-time frame truncated
after two of its four bytes, then completed by the next buffer. -/
theorem C2_witness :
    decode (encodeFrames [EncFrame.skip 2] ++ (encodeFrame (EncFrame.time 197121)).take 2)
        ⟨true, true, true, true, false, 0, 0⟩ none =
      ⟨framesOf [EncFrame.skip 2], (encodeFrames [EncFrame.skip 2]).length,
        (encodeFrame (EncFrame.time 197121)).take 2, none⟩ :=
  (C2_decode_truncated_midframe ⟨true, true, true, true, false, 0, 0⟩ [EncFrame.skip 2]
    [EncFrame.cfgChange] (EncFrame.time 197121) 2 rfl (by decide) (by decide) (by decide)
    (by decide) (by decide)).1

/-- Claim C3: in header mode the decoder classifies every frame by its 1-byte
header exactly as the source's header-tag table says: the seven 0x8x headers
select data frames whose payload concatenates mag (8 bytes), gyro (6 bytes)
and accel (6 bytes) in that fixed order for the flagged streams; 0x40 starts a
skip frame whose next byte is the skip count; 0x44 a sensor-time frame with a
3-byte little-endian tick payload; 0x48 an input-config-changed marker with no
payload; and 0x80 exactly stops decoding with empty leftover. -/
theorem C3_header_classification (cfg : FifoConfig) (hm : cfg.headerMode = true) :
    (∀ x0 x1 y0 y1 z0 z1 : Nat, x0 < 256 → x1 < 256 → y0 < 256 → y1 < 256 → z0 < 256 →
      z1 < 256 →
      decode [FIFO_HEAD_A, x0, x1, y0, y1, z0, z1] cfg none =
        ⟨[RawFrame.Accel (i16le x0 x1) (i16le y0 y1) (i16le z0 z1)], 7, [], none⟩) ∧
    (∀ x0 x1 y0 y1 z0 z1 : Nat, x0 < 256 → x1 < 256 → y0 < 256 → y1 < 256 → z0 < 256 →
      z1 < 256 →
      decode [FIFO_HEAD_G, x0, x1, y0, y1, z0, z1] cfg none =
        ⟨[RawFrame.Gyro (i16le x0 x1) (i16le y0 y1) (i16le z0 z1)], 7, [], none⟩) ∧
    (∀ g0 g1 g2 g3 g4 g5 a0 a1 a2 a3 a4 a5 : Nat, g0 < 256 → g1 < 256 → g2 < 256 →
      g3 < 256 → g4 < 256 → g5 < 256 → a0 < 256 → a1 < 256 → a2 < 256 → a3 < 256 →
      a4 < 256 → a5 < 256 →
      decode [FIFO_HEAD_G_A, g0, g1, g2, g3, g4, g5, a0, a1, a2, a3, a4, a5] cfg none =
        ⟨[RawFrame.Gyro (i16le g0 g1) (i16le g2 g3) (i16le g4 g5),
          RawFrame.Accel (i16le a0 a1) (i16le a2 a3) (i16le a4 a5)], 13, [], none⟩) ∧
    (∀ m0 m1 m2 m3 m4 m5 m6 m7 : Nat, m0 < 256 → m1 < 256 → m2 < 256 → m3 < 256 →
      m4 < 256 → m5 < 256 → m6 < 256 → m7 < 256 →
      decode [FIFO_HEAD_M, m0, m1, m2, m3, m4, m5, m6, m7] cfg none =
        ⟨[RawFrame.Mag (i16le m0 m1) (i16le m2 m3) (i16le m4 m5) (u16le m6 m7)],
         9, [], none⟩) ∧
    (∀ m0 m1 m2 m3 m4 m5 m6 m7 a0 a1 a2 a3 a4 a5 : Nat, m0 < 256 → m1 < 256 → m2 < 256 →
      m3 < 256 → m4 < 256 → m5 < 256 → m6 < 256 → m7 < 256 → a0 < 256 → a1 < 256 →
      a2 < 256 → a3 < 256 → a4 < 256 → a5 < 256 →
      decode [FIFO_HEAD_M_A, m0, m1, m2, m3, m4, m5, m6, m7, a0, a1, a2, a3, a4, a5]
          cfg none =
        ⟨[RawFrame.Mag (i16le m0 m1) (i16le m2 m3) (i16le m4 m5) (u16le m6 m7),
          RawFrame.Accel (i16le a0 a1) (i16le a2 a3) (i16le a4 a5)], 15, [], none⟩) ∧
    (∀ m0 m1 m2 m3 m4 m5 m6 m7 g0 g1 g2 g3 g4 g5 : Nat, m0 < 256 → m1 < 256 → m2 < 256 →
      m3 < 256 → m4 < 256 → m5 < 256 → m6 < 256 → m7 < 256 → g0 < 256 → g1 < 256 →
      g2 < 256 → g3 < 256 → g4 < 256 → g5 < 256 →
      decode [FIFO_HEAD_M_G, m0, m1, m2, m3, m4, m5, m6, m7, g0, g1, g2, g3, g4, g5]
          cfg none =
        ⟨[RawFrame.Mag (i16le m0 m1) (i16le m2 m3) (i16le m4 m5) (u16le m6 m7),
          RawFrame.Gyro (i16le g0 g1) (i16le g2 g3) (i16le g4 g5)], 15, [], none⟩) ∧
    (∀ m0 m1 m2 m3 m4 m5 m6 m7 g0 g1 g2 g3 g4 g5 a0 a1 a2 a3 a4 a5 : Nat, m0 < 256 →
      m1 < 256 → m2 < 256 → m3 < 256 → m4 < 256 → m5 < 256 → m6 < 256 → m7 < 256 →
      g0 < 256 → g1 < 256 → g2 < 256 → g3 < 256 → g4 < 256 → g5 < 256 → a0 < 256 →
      a1 < 256 → a2 < 256 → a3 < 256 → a4 < 256 → a5 < 256 →
      decode [FIFO_HEAD_M_G_A, m0, m1, m2, m3, m4, m5, m6, m7, g0, g1, g2, g3, g4, g5,
          a0, a1, a2, a3, a4, a5] cfg none =
        ⟨[RawFrame.Mag (i16le m0 m1) (i16le m2 m3) (i16le m4 m5) (u16le m6 m7),
          RawFrame.Gyro (i16le g0 g1) (i16le g2 g3) (i16le g4 g5),
          RawFrame.Accel (i16le a0 a1) (i16le a2 a3) (i16le a4 a5)], 21, [], none⟩) ∧
    (∀ c : Nat, c < 256 →
      decode [FIFO_HEAD_SKIP_FRAME, c] cfg none =
        ⟨[RawFrame.SkipFrame c], 2, [], none⟩) ∧
    (∀ b0 b1 b2 : Nat, b0 < 256 → b1 < 256 → b2 < 256 →
      decode [FIFO_HEAD_SENSOR_TIME, b0, b1, b2] cfg none =
        ⟨[RawFrame.SensorTime (u24le b0 b1 b2)], 4, [], none⟩) ∧
    (decode [FIFO_HEAD_INPUT_CONFIG] cfg none =
      ⟨[RawFrame.InputConfigChanged], 1, [], none⟩) ∧
    (∀ rest : List Nat,
      decode (FIFO_HEAD_OVER_READ :: rest) cfg none = ⟨[], 1 + rest.length, [], none⟩) := by
  refine ⟨?_, ?_, ?_, ?_, ?_, ?_, ?_, ?_, ?_, ?_, ?_⟩
  · intro x0 x1 y0 y1 z0 z1 h1 h2 h3 h4 h5 h6
    exact decode_one_accel cfg hm x0 x1 y0 y1 z0 z1 h1 h2 h3 h4 h5 h6
  · intro x0 x1 y0 y1 z0 z1 h1 h2 h3 h4 h5 h6
    exact decode_one_gyro cfg hm x0 x1 y0 y1 z0 z1 h1 h2 h3 h4 h5 h6
  · intro g0 g1 g2 g3 g4 g5 a0 a1 a2 a3 a4 a5 h1 h2 h3 h4 h5 h6 h7 h8 h9 h10 h11 h12
    exact decode_one_gyro_accel cfg hm g0 g1 g2 g3 g4 g5 a0 a1 a2 a3 a4 a5
      h1 h2 h3 h4 h5 h6 h7 h8 h9 h10 h11 h12
  · intro m0 m1 m2 m3 m4 m5 m6 m7 h1 h2 h3 h4 h5 h6 h7 h8
    exact decode_one_mag cfg hm m0 m1 m2 m3 m4 m5 m6 m7 h1 h2 h3 h4 h5 h6 h7 h8
  · intro m0 m1 m2 m3 m4 m5 m6 m7 a0 a1 a2 a3 a4 a5 h1 h2 h3 h4 h5 h6 h7 h8 h9 h10 h11
      h12 h13 h14
    exact decode_one_mag_accel cfg hm m0 m1 m2 m3 m4 m5 m6 m7 a0 a1 a2 a3 a4 a5
      h1 h2 h3 h4 h5 h6 h7 h8 h9 h10 h11 h12 h13 h14
  · intro m0 m1 m2 m3 m4 m5 m6 m7 g0 g1 g2 g3 g4 g5 h1 h2 h3 h4 h5 h6 h7 h8 h9 h10 h11
      h12 h13 h14
    exact decode_one_mag_gyro cfg hm m0 m1 m2 m3 m4 m5 m6 m7 g0 g1 g2 g3 g4 g5
      h1 h2 h3 h4 h5 h6 h7 h8 h9 h10 h11 h12 h13 h14
  · intro m0 m1 m2 m3 m4 m5 m6 m7 g0 g1 g2 g3 g4 g5 a0 a1 a2 a3 a4 a5 h1 h2 h3 h4 h5 h6
      h7 h8 h9 h10 h11 h12 h13 h14 h15 h16 h17 h18 h19 h20
    exact decode_one_mga cfg hm m0 m1 m2 m3 m4 m5 m6 m7 g0 g1 g2 g3 g4 g5 a0 a1 a2 a3
      a4 a5 h1 h2 h3 h4 h5 h6 h7 h8 h9 h10 h11 h12 h13 h14 h15 h16 h17 h18 h19 h20
  · intro c hc
    exact decode_one_skip cfg hm c hc
  · intro b0 b1 b2 h0 h1 h2
    exact decode_one_time cfg hm b0 b1 b2 h0 h1 h2
  · exact decode_one_cfgchange cfg hm
  · intro rest
    exact decode_overread cfg hm rest

/-- Witness for C3: the mag+gyro+accel header on a concrete 20-byte payload. -/
theorem C3_witness :
    decode [FIFO_HEAD_M_G_A, 1, 2, 3, 4, 5, 6, 7, 8, 9, 10, 11, 12, 13, 14, 15, 16, 17,
        18, 19, 20] ⟨true, true, true, true, false, 0, 0⟩ none =
      ⟨[RawFrame.Mag (i16le 1 2) (i16le 3 4) (i16le 5 6) (u16le 7 8),
        RawFrame.Gyro (i16le 9 10) (i16le 11 12) (i16le 13 14),
        RawFrame.Accel (i16le 15 16) (i16le 17 18) (i16le 19 20)], 21, [], none⟩ :=
  (C3_header_classification ⟨true, true, true, true, false, 0, 0⟩ rfl).2.2.2.2.2.2.1
    1 2 3 4 5 6 7 8 9 10 11 12 13 14 15 16 17 18 19 20
    (by decide) (by decide) (by decide) (by decide) (by decide) (by decide) (by decide)
    (by decide) (by decide) (by decide) (by decide) (by decide) (by decide) (by decide)
    (by decide) (by decide) (by decide) (by decide) (by decide) (by decide)

/-- Claim C4: a byte whose tag matches no known header pattern makes `decode`
report a `MalformedFifoHeader` error carrying the byte offset and the raw
byte, still return every frame fully decoded before that offset, emit no
partial frame, and not skip the malformed byte silently. -/
theorem C4_malformed_header (fs : List EncFrame) (cfg : FifoConfig) (b : Nat)
    (rest : List Nat) (hm : cfg.headerMode = true)
    (hv : ∀ f ∈ fs, validFrame f = true) (hb : recognizedHead b = false) :
    decode (encodeFrames fs ++ b :: rest) cfg none =
      ⟨framesOf fs, (encodeFrames fs).length, [],
       some (DecodeError.MalformedFifoHeader (encodeFrames fs).length b)⟩ := by
  unfold decode
  rw [hm]
  simp only [Option.getD_none, List.nil_append, if_true]
  have hlen := length_le_length_encodeFrames fs
  have hfuel : fs.length ≤ (encodeFrames fs ++ b :: rest).length := by
    simp only [List.length_append, List.length_cons]
    omega
  rw [decodeH_encodeFrames fs hv _ 0 _ hfuel]
  obtain ⟨j, hj⟩ : ∃ j, (encodeFrames fs ++ b :: rest).length - fs.length = j + 1 := by
    refine ⟨(encodeFrames fs ++ b :: rest).length - fs.length - 1, ?_⟩
    simp only [List.length_append, List.length_cons]
    omega
  rw [hj, decodeH_malformed b hb]
  simp

/-- Witness for C4: config-change frame, then the unrecognized byte 0x41. -/
theorem C4_witness :
    decode (encodeFrames [EncFrame.cfgChange] ++ 0x41 :: [9])
        ⟨true, true, true, true, false, 0, 0⟩ none =
      ⟨framesOf [EncFrame.cfgChange], (encodeFrames [EncFrame.cfgChange]).length, [],
       some (DecodeError.MalformedFifoHeader (encodeFrames [EncFrame.cfgChange]).length
         0x41)⟩ :=
  C4_malformed_header [EncFrame.cfgChange] ⟨true, true, true, true, false, 0, 0⟩ 0x41 [9]
    rfl (by decide) (by decide)

/-- Claim C5: every 16-bit axis sample decoded from the FIFO is the signed
little-endian reconstruction of its byte pair (value in [-32768, 32768) and
congruent to `msb * 256 + lsb` mod 2^16), `rhall` is unsigned, sensor time is
an unsigned 24-bit value assembled LSB-first from three bytes, and decoding
`0x44 0x01 0x02 0x03` yields one SensorTime frame with ticks = 0x030201 and
empty leftover. -/
theorem C5_numeric_reconstruction (cfg : FifoConfig) (hm : cfg.headerMode = true) :
    (∀ lsb msb : Nat, lsb < 256 → msb < 256 →
      -32768 ≤ i16le lsb msb ∧ i16le lsb msb < 32768 ∧
        i16le lsb msb % 65536 = ((msb * 256 + lsb : Nat) : Int) % 65536) ∧
    (∀ r0 r1 : Nat, u16le r0 r1 = r1 * 256 + r0) ∧
    (∀ b0 b1 b2 : Nat, u24le b0 b1 b2 = b0 + 256 * b1 + 65536 * b2) ∧
    (∀ x0 x1 y0 y1 z0 z1 : Nat, x0 < 256 → x1 < 256 → y0 < 256 → y1 < 256 → z0 < 256 →
      z1 < 256 →
      decode [FIFO_HEAD_A, x0, x1, y0, y1, z0, z1] cfg none =
        ⟨[RawFrame.Accel (i16le x0 x1) (i16le y0 y1) (i16le z0 z1)], 7, [], none⟩) ∧
    (∀ m0 m1 m2 m3 m4 m5 m6 m7 : Nat, m0 < 256 → m1 < 256 → m2 < 256 → m3 < 256 →
      m4 < 256 → m5 < 256 → m6 < 256 → m7 < 256 →
      decode [FIFO_HEAD_M, m0, m1, m2, m3, m4, m5, m6, m7] cfg none =
        ⟨[RawFrame.Mag (i16le m0 m1) (i16le m2 m3) (i16le m4 m5) (u16le m6 m7)],
         9, [], none⟩) ∧
    (∀ b0 b1 b2 : Nat, b0 < 256 → b1 < 256 → b2 < 256 →
      decode [FIFO_HEAD_SENSOR_TIME, b0, b1, b2] cfg none =
        ⟨[RawFrame.SensorTime (u24le b0 b1 b2)], 4, [], none⟩) ∧
    decode [FIFO_HEAD_SENSOR_TIME, 1, 2, 3] cfg none =
      ⟨[RawFrame.SensorTime 0x030201], 4, [], none⟩ := by
  refine ⟨?_, fun r0 r1 => rfl, fun b0 b1 b2 => rfl, ?_, ?_, ?_, ?_⟩
  · intro lsb msb h1 h2
    unfold i16le toI16 u16le
    split_ifs with hlt <;> refine ⟨?_, ?_, ?_⟩ <;> push_cast <;> omega
  · intro x0 x1 y0 y1 z0 z1 h1 h2 h3 h4 h5 h6
    exact decode_one_accel cfg hm x0 x1 y0 y1 z0 z1 h1 h2 h3 h4 h5 h6
  · intro m0 m1 m2 m3 m4 m5 m6 m7 h1 h2 h3 h4 h5 h6 h7 h8
    exact decode_one_mag cfg hm m0 m1 m2 m3 m4 m5 m6 m7 h1 h2 h3 h4 h5 h6 h7 h8
  · intro b0 b1 b2 h0 h1 h2
    exact decode_one_time cfg hm b0 b1 b2 h0 h1 h2
  · have h := decode_one_time cfg hm 1 2 3 (by omega) (by omega) (by omega)
    simpa [u24le] using h

/-- Witness for C5: decoding the concrete buffer `0x44 0x01 0x02 0x03`. -/
theorem C5_witness :
    decode [FIFO_HEAD_SENSOR_TIME, 1, 2, 3] ⟨true, true, true, true, false, 0, 0⟩ none =
      ⟨[RawFrame.SensorTime 0x030201], 4, [], none⟩ :=
  (C5_numeric_reconstruction ⟨true, true, true, true, false, 0, 0⟩ rfl).2.2.2.2.2.2

/-- Counterexample for C6 as stated: with a 21-byte carry holding a
config-change marker followed by a truncated mag+gyro+accel frame and an
empty buffer, `decode` consumes 1 byte (more than the buffer's 0 bytes) and
leaves a 20-byte leftover (more than 19): a headered data frame is 1 header
byte plus up to 20 payload bytes, so a truncated frame can leave 20 bytes. -/
theorem C6_counterexample :
    ¬ ((decode [] ⟨true, true, true, true, false, 0, 0⟩
          (some (FIFO_HEAD_INPUT_CONFIG :: FIFO_HEAD_M_G_A :: List.replicate 19 0))).consumed ≤
        ([] : List Nat).length ∧
       (decode [] ⟨true, true, true, true, false, 0, 0⟩
          (some (FIFO_HEAD_INPUT_CONFIG :: FIFO_HEAD_M_G_A ::
            List.replicate 19 0))).leftover.length ≤ 19) := by
  decide

/-- Claim C6 (amended): for every input buffer, config, and carry, `decode`
consumes at most the combined length of the carry and the buffer, and the
returned leftover never exceeds 20 bytes (the 21-byte maximum single headered
frame — 1 header byte plus the 20-byte mag+gyro+accel payload — minus 1). -/
theorem C6_consumed_leftover_bounds (buffer : List Nat) (cfg : FifoConfig)
    (carry : Option (List Nat)) :
    (decode buffer cfg carry).consumed ≤ (carry.getD []).length + buffer.length ∧
    (decode buffer cfg carry).leftover.length ≤ 20 := by
  unfold decode
  by_cases hh : cfg.headerMode = true
  · simp only [hh, if_true]
    constructor
    · have h := decodeH_consumed_le (carry.getD [] ++ buffer).length
        (carry.getD [] ++ buffer) 0
      simpa [List.length_append] using h
    · exact decodeH_leftover_le (carry.getD [] ++ buffer).length (carry.getD [] ++ buffer)
        0 (le_refl _)
  · simp only [Bool.not_eq_true] at hh
    simp only [hh]
    by_cases hz : dataLen cfg.magEn cfg.gyroEn cfg.accelEn = 0
    · simp [hz]
    · simp only [hz, if_false]
      constructor
      · have h := decodeHL_consumed_le (carry.getD [] ++ buffer).length
          (carry.getD [] ++ buffer) 0 cfg.magEn cfg.gyroEn cfg.accelEn
        simpa [List.length_append] using h
      · exact decodeHL_leftover_le (carry.getD [] ++ buffer).length
          (carry.getD [] ++ buffer) 0 cfg.magEn cfg.gyroEn cfg.accelEn (by omega)
          (le_refl _)

/-! ### Claim theorems: configuration encoder and register map -/

/-- Claim C7: `encode_odr_bw` and `encode_range` succeed exactly on the
documented enumerations — ODR codes 0–13 for gyro and 0–15 for accel,
bandwidth codes 0–7, accel range codes {0x03, 0x05, 0x08, 0x0C} and gyro
range codes 0–4 — and any value outside the accepted set fails with an
`InvalidConfiguration` error before any bus write is attempted (the bus-write
trace stays empty). -/
theorem C7_encoder_domains :
    (∀ odr bw : Nat, (encode_odr_bw SensorKind.gyro odr bw).isOk = true ↔
      odr ≤ 13 ∧ bw ≤ 7) ∧
    (∀ odr bw : Nat, (encode_odr_bw SensorKind.accel odr bw).isOk = true ↔
      odr ≤ 15 ∧ bw ≤ 7) ∧
    (∀ r : Nat, (encode_range SensorKind.accel r).isOk = true ↔
      (r = ACCEL_RANGE_2G ∨ r = ACCEL_RANGE_4G ∨ r = ACCEL_RANGE_8G ∨
        r = ACCEL_RANGE_16G)) ∧
    (∀ r : Nat, (encode_range SensorKind.gyro r).isOk = true ↔ r ≤ GYRO_RANGE_MAX) ∧
    (∀ s odr bw, (encode_odr_bw s odr bw).isOk = false →
      set_odr_bw s odr bw = (.error DriverError.InvalidConfiguration, [])) ∧
    (∀ s r, (encode_range s r).isOk = false →
      set_range s r = (.error DriverError.InvalidConfiguration, [])) := by
  have hgo : GYRO_ODR_MAX = 13 := rfl
  have hao : ACCEL_ODR_MAX = 15 := rfl
  refine ⟨?_, ?_, ?_, ?_, ?_, ?_⟩
  · intro odr bw
    simp only [encode_odr_bw]
    split_ifs with h1 h2 <;> simp [Except.isOk, Except.toBool] <;>
      simp only [GYRO_ODR_MAX] at h1 <;> omega
  · intro odr bw
    simp only [encode_odr_bw]
    split_ifs with h1 h2 <;> simp [Except.isOk, Except.toBool] <;>
      simp only [ACCEL_ODR_MAX] at h1 <;> omega
  · intro r
    simp only [encode_range]
    split_ifs with h1 <;> simp [Except.isOk, Except.toBool] <;> tauto
  · intro r
    simp only [encode_range]
    split_ifs with h1 <;> simp [Except.isOk, Except.toBool] <;> omega
  · intro s odr bw hfail
    unfold set_odr_bw
    rcases he : encode_odr_bw s odr bw with e | v
    · unfold encode_odr_bw at he
      split_ifs at he <;> simp_all
    · rw [he] at hfail
      simp [Except.isOk, Except.toBool] at hfail
  · intro s r hfail
    unfold set_range
    rcases he : encode_range s r with e | v
    · unfold encode_range at he
      cases s <;> simp only at he <;> split_ifs at he <;> simp_all
    · rw [he] at hfail
      simp [Except.isOk, Except.toBool] at hfail

/-- Witness for C7: the spec's out-of-range scenario, ODR code 0x0F for the
gyro, rejected with no bus write recorded. -/
theorem C7_witness :
    (encode_odr_bw SensorKind.gyro 0x0F 2).isOk = false ∧
    set_odr_bw SensorKind.gyro 0x0F 2 = (.error DriverError.InvalidConfiguration, []) :=
  ⟨by decide, (C7_encoder_domains).2.2.2.2.1 SensorKind.gyro 0x0F 2 (by decide)⟩

/-- Claim C8: `apply_masked` leaves every bit outside the mask unchanged, is
idempotent for a fixed mask and field, and equals the original byte with the
mask bits zeroed OR'd with the new masked value. -/
theorem C8_apply_masked_props (reg mask field : Nat) (hreg : reg < 256)
    (hmask : mask < 256) :
    (∀ i : Nat, mask.testBit i = false →
      (apply_masked reg mask field).testBit i = reg.testBit i) ∧
    apply_masked (apply_masked reg mask field) mask field =
      apply_masked reg mask field ∧
    apply_masked reg mask field = (reg &&& (255 ^^^ mask)) ||| (field &&& mask) := by
  refine ⟨?_, ?_, rfl⟩
  · intro i hi
    unfold apply_masked
    simp only [Nat.testBit_or, Nat.testBit_and, Nat.testBit_xor, hi, Bool.and_false,
      Bool.or_false, Bool.xor_false]
    by_cases hi8 : i < 8
    · have h255 : (255 : Nat).testBit i = true := by
        interval_cases i <;> decide
      simp [h255]
    · have h255 : (255 : Nat).testBit i = false := by
        apply Nat.testBit_lt_two_pow
        calc (255 : Nat) < 256 := by omega
        _ = 2 ^ 8 := by norm_num
        _ ≤ 2 ^ i := Nat.pow_le_pow_right (by omega) (by omega)
      have hr : reg.testBit i = false := by
        apply Nat.testBit_lt_two_pow
        calc reg < 256 := hreg
        _ = 2 ^ 8 := by norm_num
        _ ≤ 2 ^ i := Nat.pow_le_pow_right (by omega) (by omega)
      simp [h255, hr]
  · apply Nat.eq_of_testBit_eq
    intro i
    unfold apply_masked
    simp only [Nat.testBit_or, Nat.testBit_and]
    cases hr : reg.testBit i <;> cases hc : (255 ^^^ mask).testBit i <;>
      cases hf : field.testBit i <;> cases hm2 : mask.testBit i <;> simp

/-- Witness for C8 at a concrete register byte, mask and field. -/
theorem C8_witness :
    (∀ i : Nat, (0x70 : Nat).testBit i = false →
      (apply_masked 0xA5 0x70 0x20).testBit i = (0xA5 : Nat).testBit i) ∧
    apply_masked (apply_masked 0xA5 0x70 0x20) 0x70 0x20 = apply_masked 0xA5 0x70 0x20 ∧
    apply_masked 0xA5 0x70 0x20 = (0xA5 &&& (255 ^^^ 0x70)) ||| (0x20 &&& 0x70) :=
  C8_apply_masked_props 0xA5 0x70 0x20 (by decide) (by decide)

/-- Claim C9: a write to a register whose capability tag is read-only fails
locally before any transport call — the bus-write trace is empty and the
result is an error. -/
theorem C9_readonly_write_rejected (r : Register) (v : Nat)
    (h : r.read_only = true) :
    write_register r v = (.error DriverError.WriteToReadOnly, []) := by
  unfold write_register
  simp [h]

/-- Witness for C9: writing to the read-only CHIP_ID register. -/
theorem C9_witness :
    write_register Register.CHIP_ID 7 = (.error DriverError.WriteToReadOnly, []) :=
  C9_readonly_write_rejected Register.CHIP_ID 7 rfl

/-- Claim C10: `Register::read_only` returns true for exactly the eleven
variants CHIP_ID, ERROR_REG, PMU_STATUS, DATA, SENSORTIME, STATUS,
INT_STATUS, TEMPERATURE, FIFO_LENGTH, FIFO_DATA and STEP_CNT, and false for
every other variant — in particular false for CMD, the write-only command
register, which the two-valued capability model classifies as writable. -/
theorem C10_read_only_exact :
    (∀ r : Register, r.read_only = true ↔
      (r = Register.CHIP_ID ∨ r = Register.ERROR_REG ∨ r = Register.PMU_STATUS ∨
       r = Register.DATA ∨ r = Register.SENSORTIME ∨ r = Register.STATUS ∨
       r = Register.INT_STATUS ∨ r = Register.TEMPERATURE ∨ r = Register.FIFO_LENGTH ∨
       r = Register.FIFO_DATA ∨ r = Register.STEP_CNT)) ∧
    Register.read_only Register.CMD = false := by
  constructor
  · intro r
    cases r <;> decide
  · rfl

end BMI160
